import Mathlib

/-
Shallow embedding of src/scripts/IHKScraper/extractToken.py.

The repository is a Selenium-based scraper (class IHKScraper) that logs into
the IHK portal, harvests a bearer token from browser performance logs, copies
the browser cookies into a requests.Session, and then issues authenticated
API requests.  Browser and network effects are modelled by an explicit
environment record and an event trace; errors raised by the Python code are
modelled with an explicit error type.
-/

/-- Error kinds raised by the scraper.  In the Python source most of these are
`ValueError` with distinct messages; the spec gives them distinct names
(MissingCredentialsError, TokenNotFoundError, NotAuthenticatedError, ...). -/
inductive ScraperError where
  /-- webdriver.Chrome failed to start (WebDriverException, line 105). -/
  | browserInit
  /-- ValueError at line 127: username and password must be provided. -/
  | missingCredentials
  /-- TimeoutException from a fatal WebDriverWait (re-raised at line 157). -/
  | elementTimeout
  /-- ValueError at line 192: no bearer token found in performance logs. -/
  | tokenNotFound
  /-- ValueError at line 274: must authenticate before making API requests. -/
  | notAuthenticated
  /-- requests.HTTPError from response.raise_for_status (line 319), carrying
  the response status and body. -/
  | httpError (status : Nat) (body : String)
deriving DecidableEq

/-- Character class [A-Za-z0-9\-_\.] of the regex at line 184. -/
def isTokenChar (c : Char) : Bool :=
  c.isAlpha || c.isDigit || c == '-' || c == '_' || c == '.'

/-- The literal part of the regex at line 184: the characters of "Bearer ". -/
def bearerPat : List Char := ['B', 'e', 'a', 'r', 'e', 'r', ' ']

/-- Greedy `[A-Za-z0-9\-_\.]+` matching: the maximal run of token characters
at the front of the input. -/
def takeTokenRun : List Char → List Char
  | [] => []
  | c :: cs => if isTokenChar c then c :: takeTokenRun cs else []

/-- True when the list is empty or starts with a non-token character, i.e.
when the greedy token run at this point is empty. -/
def notTokenHead : List Char → Bool
  | [] => true
  | c :: _ => !(isTokenChar c)

/-- Attempt of the regex `Bearer ([A-Za-z0-9\-_\.]+)` at the current
position: the literal "Bearer " must match, then `+` greedily takes the
maximal nonempty run of token characters, which is the captured group. -/
def matchBearerAt (s : List Char) : Option (List Char) :=
  if bearerPat.isPrefixOf s then
    let tok := takeTokenRun (s.drop 7)
    if tok = [] then none else some tok
  else none

/-- `re.search` semantics at line 185: scan positions left to right and
return the captured group of the first position where the pattern matches. -/
def reSearchBearer : List Char → Option (List Char)
  | [] => none
  | c :: cs =>
    match matchBearerAt (c :: cs) with
    | some t => some t
    | none => reSearchBearer cs

/-- Lines 183-192 of `_extract_bearer_token`: search the serialized log text
for the bearer pattern; return the first captured token, otherwise raise
ValueError("No bearer token found in performance logs"). -/
def extractBearerFromLog (s : List Char) : Except ScraperError String :=
  match reSearchBearer s with
  | some t => Except.ok (String.mk t)
  | none => Except.error ScraperError.tokenNotFound

/-- Specification-side decidable predicate: the bearer pattern matches at
position j of s ("Bearer " occurs at j and is followed by at least one token
character). -/
def bearerMatchesAt (s : List Char) (j : Nat) : Bool :=
  bearerPat.isPrefixOf (s.drop j) && !(notTokenHead ((s.drop j).drop 7))

/- ### Data model: configuration, state, events, environment -/

/-- IHKConfig dataclass (lines 21-34). -/
structure IHKConfig where
  base_url : String := "https://bildung.ihk.de"
  api_base_url : String := "https://service.ihk.de/anwender/anwender-api/v1"
  username : String := ""
  password : String := ""
  ihk_nummer : String := "108"
  organisation_nummer : String := "560628108"
  headless : Bool := true
  window_size : String := "1920,1080"
  user_agent : String := "Mozilla/5.0 (X11; Linux x86_64) AppleWebKit/537.36 (KHTML, like Gecko) Chrome/134.0.0.0 Safari/537.36"
deriving DecidableEq

/-- The Chrome WebDriver object; `quitted` records whether driver.quit() ran. -/
structure DriverState where
  quitted : Bool
deriving DecidableEq

/-- A requests.Session object: its cookie jar (name/value pairs copied from
the browser at line 209) and whether session.close() ran. -/
structure SessionState where
  cookies : List (String × String)
  closed : Bool
deriving DecidableEq

/-- The mutable attributes of an IHKScraper instance (lines 55-58).  A Python
attribute holding None is modelled as `none`; closing a driver or session
mutates the referenced object, not the attribute. -/
structure ScraperState where
  config : IHKConfig
  driver : Option DriverState
  session : Option SessionState
  bearer_token : Option String
deriving DecidableEq

/-- IHKScraper.__init__ (lines 48-58): driver, session and token start None. -/
def initScraper (cfg : IHKConfig) : ScraperState :=
  { config := cfg, driver := none, session := none, bearer_token := none }

/-- Observable browser interactions, recorded as a trace. -/
inductive BrowserEvent where
  | launch
  | navigate (url : String)
  | waitClickable (selector : String) (timeout : Nat)
  | waitPresent (selector : String) (timeout : Nat)
  | click (selector : String)
  | sendKeys (selector : String) (text : String)
  | sleep (seconds : Nat)
  | readPerformanceLog
  | readCookies
  | screenshot
  | quitDriver
deriving DecidableEq

/-- External-world behaviour the browser automation observes: whether the
driver starts, which awaited elements become available, the serialized
performance log (json.dumps(logs), line 179) and the browser cookies. -/
structure Env where
  browserLaunchOk : Bool
  consentClickable : Bool
  loginLinkClickable : Bool
  usernameFieldPresent : Bool
  passwordFieldPresent : Bool
  telemetryLog : List Char
  browserCookies : List (String × String)
deriving DecidableEq

/-- XPath of the consent-accept button (line 111); \x27 is an ASCII quote. -/
def consentSelector : String := "//button[contains(., \x27Alle akzeptieren\x27)]"

/-- XPath of the login entry point (line 132). -/
def loginLinkSelector : String := "//a[contains(., \x27Jetzt anmelden!\x27)]"

/-- id of the username field (line 139). -/
def usernameSelector : String := "username"

/-- id of the login/continue button (lines 144, 151). -/
def kcLoginSelector : String := "kc-login"

/-- id of the password field (line 148). -/
def passwordSelector : String := "password"

/- ### Flow components -/

/-- _accept_cookies (lines 107-116): wait up to 3 for the clickable consent
button and click it; a TimeoutException is caught and only logged, so the
step never raises. -/
def accept_cookies (env : Env) : List BrowserEvent × Option ScraperError :=
  if env.consentClickable then
    ([BrowserEvent.waitClickable consentSelector 3, BrowserEvent.click consentSelector], none)
  else
    ([BrowserEvent.waitClickable consentSelector 3], none)

/-- _perform_login (lines 118-160): check credentials first (line 126), then
navigate the login form; every TimeoutException here is re-raised (fatal). -/
def perform_login (env : Env) (cfg : IHKConfig) : List BrowserEvent × Option ScraperError :=
  if cfg.username = "" ∨ cfg.password = "" then
    ([], some ScraperError.missingCredentials)
  else if env.loginLinkClickable = false then
    ([BrowserEvent.waitClickable loginLinkSelector 10], some ScraperError.elementTimeout)
  else if env.usernameFieldPresent = false then
    ([BrowserEvent.waitClickable loginLinkSelector 10, BrowserEvent.click loginLinkSelector,
      BrowserEvent.waitPresent usernameSelector 10], some ScraperError.elementTimeout)
  else if env.passwordFieldPresent = false then
    ([BrowserEvent.waitClickable loginLinkSelector 10, BrowserEvent.click loginLinkSelector,
      BrowserEvent.waitPresent usernameSelector 10,
      BrowserEvent.sendKeys usernameSelector cfg.username, BrowserEvent.click kcLoginSelector,
      BrowserEvent.waitPresent passwordSelector 10], some ScraperError.elementTimeout)
  else
    ([BrowserEvent.waitClickable loginLinkSelector 10, BrowserEvent.click loginLinkSelector,
      BrowserEvent.waitPresent usernameSelector 10,
      BrowserEvent.sendKeys usernameSelector cfg.username, BrowserEvent.click kcLoginSelector,
      BrowserEvent.waitPresent passwordSelector 10,
      BrowserEvent.sendKeys passwordSelector cfg.password, BrowserEvent.click kcLoginSelector],
     none)

/-- _extract_bearer_token (lines 162-196): navigate to the berufsbilder-check
route, sleep 5, read the performance log, then run the regex search of lines
183-192 on the serialized log. -/
def extract_bearer_token (env : Env) (cfg : IHKConfig) :
    List BrowserEvent × Except ScraperError String :=
  ([BrowserEvent.navigate (cfg.base_url ++ "/service/berufsbilder-check"),
    BrowserEvent.sleep 5, BrowserEvent.readPerformanceLog],
   extractBearerFromLog env.telemetryLog)

/-- _setup_session (lines 198-212): fresh requests.Session whose jar receives
every browser cookie as a name/value pair. -/
def setup_session (env : Env) : List BrowserEvent × SessionState :=
  ([BrowserEvent.readCookies], { cookies := env.browserCookies, closed := false })

/-- authenticate (lines 214-245): launch the browser, load the homepage,
attempt consent dismissal, log in, harvest the token, build the session.  On
any error a best-effort screenshot is taken (only when self.driver is set,
line 250) and the error is re-raised.  Returns the event trace, the
post-state (attribute mutations happen as the flow progresses, so they are
visible even on the error paths) and the raised error, if any. -/
def authenticate (env : Env) (st : ScraperState) :
    List BrowserEvent × ScraperState × Option ScraperError :=
  if env.browserLaunchOk = false then
    ([BrowserEvent.launch] ++ (if st.driver.isSome then [BrowserEvent.screenshot] else []),
     st, some ScraperError.browserInit)
  else
    let st1 : ScraperState := { st with driver := some { quitted := false } }
    let evs0 : List BrowserEvent := [BrowserEvent.launch, BrowserEvent.navigate st.config.base_url]
    let evs1 := (accept_cookies env).1
    match perform_login env st.config with
    | (evsL, some e) => (evs0 ++ evs1 ++ evsL ++ [BrowserEvent.screenshot], st1, some e)
    | (evsL, none) =>
      match extract_bearer_token env st.config with
      | (evsT, Except.error e) =>
        (evs0 ++ evs1 ++ evsL ++ evsT ++ [BrowserEvent.screenshot], st1, some e)
      | (evsT, Except.ok tok) =>
        let (evsS, sess) := setup_session env
        (evs0 ++ evs1 ++ evsL ++ evsT ++ evsS,
         { st1 with bearer_token := some tok, session := some sess }, none)

/-- Does the event navigate the browser? -/
def isNavigate : BrowserEvent → Bool
  | BrowserEvent.navigate _ => true
  | _ => false

/-- Number of navigation calls recorded in a trace. -/
def navCount (evs : List BrowserEvent) : Nat := (evs.filter isNavigate).length

/- ### Python dict operations (insertion-ordered association list) -/

/-- d[k] lookup: the value at the first (hence unique, for a real dict)
occurrence of k. -/
def dictGet (d : List (String × String)) (k : String) : Option String :=
  match d with
  | [] => none
  | (k0, v0) :: rest => if k0 = k then some v0 else dictGet rest k

/-- d[k] = v: replace in place when the key exists, append otherwise. -/
def dictInsert (d : List (String × String)) (k : String) (v : String) :
    List (String × String) :=
  match d with
  | [] => [(k, v)]
  | (k0, v0) :: rest =>
    if k0 = k then (k, v) :: rest else (k0, v0) :: dictInsert rest k v

/-- d.update(h): insert every entry of h, in h order (line 291). -/
def dictUpdate (d h : List (String × String)) : List (String × String) :=
  h.foldl (fun acc kv => dictInsert acc kv.1 kv.2) d

/- ### API layer -/

/-- Python truthiness of an Optional[str] attribute: None and "" are falsy. -/
def tokenTruthy : Option String → Bool
  | none => false
  | some s => !(s == "")

/-- The fixed header dict of lines 278-287. -/
def fixedHeaders (cfg : IHKConfig) (token : String) : List (String × String) :=
  [("Accept", "application/json"),
   ("Authorization", "Bearer " ++ token),
   ("Referer", cfg.base_url ++ "/"),
   ("X-Bereich-Intern-Extern", "extern"),
   ("X-Ex-Abb", "false"),
   ("X-Ihk-Nummer", cfg.ihk_nummer),
   ("X-Organisation-Nummer-Lang", cfg.organisation_nummer),
   ("User-Agent", cfg.user_agent)]

/-- The HTTP request handed to session.request at line 294: URL, method, the
merged header dict, and the cookie jar the session sends it with. -/
structure ApiRequest where
  url : String
  method : String
  headers : List (String × String)
  jar : List (String × String)
deriving DecidableEq

/-- api_request (lines 257-300).  Guard of line 273: `not self.session or not
self.bearer_token` raises ValueError before any network activity (a requests
Session object is always truthy; an empty-string token is falsy).  Otherwise
the URL is api_base_url + "/" + endpoint, the fixed headers are merged with
the caller's headers (caller wins on key collision, line 291) and the request
is issued on the stored session.  Returning `ok` is issuing the request;
`error` means nothing was sent. -/
def api_request (st : ScraperState) (endpoint method : String)
    (extraHeaders : Option (List (String × String))) : Except ScraperError ApiRequest :=
  match st.session, st.bearer_token with
  | some sess, some tok =>
    if tok = "" then Except.error ScraperError.notAuthenticated
    else
      let base := fixedHeaders st.config tok
      let merged := match extraHeaders with
        | some h => dictUpdate base h
        | none => base
      Except.ok { url := st.config.api_base_url ++ "/" ++ endpoint, method := method,
                  headers := merged, jar := sess.cookies }
  | _, _ => Except.error ScraperError.notAuthenticated

/-- A backend HTTP response: status code and body text. -/
structure HttpResponse where
  status : Nat
  body : String
deriving DecidableEq

/-- requests.Response.raise_for_status: raises HTTPError exactly for status
codes in [400, 600), carrying the response. -/
def raise_for_status (resp : HttpResponse) : Option ScraperError :=
  if 400 ≤ resp.status ∧ resp.status < 600 then
    some (ScraperError.httpError resp.status resp.body)
  else none

/-- What get_berufsbilder_check hands back to its caller on the non-raising
paths: the parsed JSON body (status 200), or Python's implicit None when the
final `response.raise_for_status()` does not raise. -/
inductive CheckResult where
  | jsonBody (body : String)
  | pyNone
deriving DecidableEq

/-- get_berufsbilder_check (lines 302-319): issue the api_request; on status
200 return response.json(), otherwise call response.raise_for_status().
`resp` is the response the environment returns for the issued request. -/
def get_berufsbilder_check (st : ScraperState) (resp : HttpResponse) :
    Except ScraperError CheckResult :=
  match api_request st "anwender/berufsbilder/check" "GET" none with
  | Except.error e => Except.error e
  | Except.ok _ =>
    if resp.status = 200 then Except.ok (CheckResult.jsonBody resp.body)
    else
      match raise_for_status resp with
      | some e => Except.error e
      | none => Except.ok CheckResult.pyNone

/-- close (lines 321-329): quit the driver if one is set, close the session
if one is set.  Neither attribute is cleared; the referenced objects are
marked closed.  ChromiumDriver.quit and requests.Session.close do not raise,
and the guards skip absent resources, so no error path exists. -/
def close (st : ScraperState) : List BrowserEvent × ScraperState × Option ScraperError :=
  match st.driver, st.session with
  | some d, some s =>
    ([BrowserEvent.quitDriver],
     { st with driver := some { d with quitted := true },
               session := some { s with closed := true } }, none)
  | some d, none =>
    ([BrowserEvent.quitDriver], { st with driver := some { d with quitted := true } }, none)
  | none, some s =>
    ([], { st with session := some { s with closed := true } }, none)
  | none, none => ([], st, none)

/-- First-defined of two optional values; used to state the header-merge
contract (caller-supplied value wins when present). -/
def firstSome (a b : Option String) : Option String :=
  match a with
  | some v => some v
  | none => b

/- ### Concrete inputs used by witnesses and counterexamples -/

/-- A log with two distinct bearer tokens; the first starts at index 5. -/
def logTwoTokens : List Char := ("junk Bearer abc.def-123_ABC more Bearer zzz9 end").toList

/-- An environment where everything the flow waits for is available. -/
def envHappy : Env :=
  { browserLaunchOk := true, consentClickable := true, loginLinkClickable := true,
    usernameFieldPresent := true, passwordFieldPresent := true,
    telemetryLog := logTwoTokens, browserCookies := [("JSESSIONID", "xyz")] }

/-- envHappy with the consent banner absent. -/
def envNoConsent : Env := { envHappy with consentClickable := false }

/-- A configuration with both credentials present. -/
def cfgWithCreds : IHKConfig := { username := "alice", password := "s3cret" }

/-- A configuration whose username is empty (the dataclass default). -/
def cfgNoUser : IHKConfig := { password := "pw" }

/-- A fresh scraper built from the credential-less configuration. -/
def stC1 : ScraperState := initScraper cfgNoUser

/-- Scraper state after authentication against envHappy. -/
def stHappy : ScraperState := (authenticate envHappy (initScraper cfgWithCreds)).2.1

/-- Event trace of that authentication. -/
def evsHappy : List BrowserEvent := (authenticate envHappy (initScraper cfgWithCreds)).1

/-- A reachable-looking state whose session exists but has an empty cookie
jar (the browser handed over no cookies) while a token is present. -/
def stEmptyJar : ScraperState :=
  { config := {}, driver := none,
    session := some { cookies := [], closed := false }, bearer_token := some "T" }

/-- The request api_request issues from stEmptyJar for endpoint "x". -/
def reqEmptyJar : ApiRequest :=
  { url := "https://service.ihk.de/anwender/anwender-api/v1/x", method := "GET",
    headers := fixedHeaders {} "T", jar := [] }

/-- An authenticated state with one cookie in the jar. -/
def stApi : ScraperState :=
  { config := {}, driver := none,
    session := some { cookies := [("a", "1")], closed := false }, bearer_token := some "TOK" }

/-- The request api_request issues from stApi for endpoint "x". -/
def reqApi : ApiRequest :=
  { url := "https://service.ihk.de/anwender/anwender-api/v1/x", method := "GET",
    headers := fixedHeaders {} "TOK", jar := [("a", "1")] }

/-- A 204 No Content response. -/
def resp204 : HttpResponse := { status := 204, body := "" }

/- ### Lemmas about the token pattern -/

theorem isPreOf_iff (l1 l2 : List Char) : l1.isPrefixOf l2 = true ↔ l1 <+: l2 :=
  List.isPrefixOf_iff_prefix

theorem takeTokenRun_all (l : List Char) : ∀ c ∈ takeTokenRun l, isTokenChar c = true := by
  induction l with
  | nil => intro c hc; simp [takeTokenRun] at hc
  | cons a as ih =>
    intro c hc
    by_cases ha : isTokenChar a
    · simp [takeTokenRun, ha] at hc
      rcases hc with rfl | hc
      · exact ha
      · exact ih c hc
    · simp [takeTokenRun, ha] at hc

theorem takeTokenRun_isPre (l : List Char) : takeTokenRun l <+: l := by
  induction l with
  | nil => simp [takeTokenRun]
  | cons a as ih =>
    by_cases ha : isTokenChar a
    · simpa [takeTokenRun, ha] using ih
    · simp [takeTokenRun, ha]

theorem takeTokenRun_append_of_all (t r : List Char)
    (h : ∀ c ∈ t, isTokenChar c = true) :
    takeTokenRun (t ++ r) = t ++ takeTokenRun r := by
  induction t with
  | nil => simp
  | cons a as ih =>
    have ha : isTokenChar a = true := h a (by simp)
    simp only [List.cons_append, takeTokenRun, ha, if_pos, List.append_eq]
    rw [ih (fun c hc => h c (by simp [hc]))]

theorem takeTokenRun_eq_nil_of_notTokenHead (r : List Char)
    (h : notTokenHead r = true) : takeTokenRun r = [] := by
  cases r with
  | nil => rfl
  | cons a as =>
    simp [notTokenHead] at h
    simp [takeTokenRun, h]

theorem takeTokenRun_ne_nil_of_head (a : Char) (as : List Char)
    (ha : isTokenChar a = true) : takeTokenRun (a :: as) ≠ [] := by
  simp [takeTokenRun, ha]

theorem matchBearerAt_nil : matchBearerAt [] = none := rfl

theorem bearerPat_length : bearerPat.length = 7 := rfl

theorem drop7_of_pat_append (s : List Char) : (bearerPat ++ s).drop 7 = s := by
  rw [show (7 : Nat) = bearerPat.length from rfl]
  exact List.drop_left bearerPat s

/-- If "Bearer " followed by the nonempty all-token run t occurs at the front
of u and the run stops right after t, the regex attempt at u captures t. -/
theorem matchBearerAt_eq_some (u t : List Char)
    (hpre : (bearerPat ++ t) <+: u)
    (hne : t ≠ [])
    (htok : ∀ c ∈ t, isTokenChar c = true)
    (hbound : notTokenHead (u.drop (7 + t.length)) = true) :
    matchBearerAt u = some t := by
  obtain ⟨r, hr⟩ := hpre
  have hu : u = bearerPat ++ (t ++ r) := by rw [← hr]; simp
  have hdrop : u.drop 7 = t ++ r := by rw [hu, drop7_of_pat_append]
  have hrdrop : u.drop (7 + t.length) = r := by
    rw [hu]
    rw [show bearerPat ++ (t ++ r) = (bearerPat ++ t) ++ r by simp]
    have : (bearerPat ++ t).length = 7 + t.length := by simp [bearerPat_length]
    rw [← this]
    exact List.drop_left (bearerPat ++ t) r
  have hrun : takeTokenRun (u.drop 7) = t := by
    rw [hdrop, takeTokenRun_append_of_all t r htok,
      takeTokenRun_eq_nil_of_notTokenHead r (by rw [← hrdrop]; exact hbound)]
    simp
  have hp : bearerPat.isPrefixOf u = true := by
    rw [isPreOf_iff, hu]
    exact ⟨t ++ r, rfl⟩
  simp [matchBearerAt, hp, hrun, hne]

/-- The regex attempt at u succeeds exactly when "Bearer " is a prefix of u
followed by at least one token character. -/
theorem matchBearerAt_isSome_iff (u : List Char) :
    (matchBearerAt u).isSome = true ↔
      ∃ t, t ≠ [] ∧ (∀ c ∈ t, isTokenChar c = true) ∧ (bearerPat ++ t) <+: u := by
  constructor
  · intro h
    unfold matchBearerAt at h
    by_cases hp : bearerPat.isPrefixOf u
    · simp only [hp, if_pos] at h
      by_cases hz : takeTokenRun (u.drop 7) = []
      · simp [hz] at h
      · refine ⟨takeTokenRun (u.drop 7), hz, takeTokenRun_all _, ?_⟩
        rw [isPreOf_iff] at hp
        obtain ⟨s, hs⟩ := hp
        have hdrop : u.drop 7 = s := by rw [← hs, drop7_of_pat_append]
        obtain ⟨r, hr⟩ := takeTokenRun_isPre (u.drop 7)
        refine ⟨r, ?_⟩
        rw [List.append_assoc, hr, hdrop, hs]
    · simp [hp] at h
  · rintro ⟨t, hne, htok, ⟨r, hr⟩⟩
    have hu : u = bearerPat ++ (t ++ r) := by rw [← hr]; simp
    have hp : bearerPat.isPrefixOf u = true := by
      rw [isPreOf_iff, hu]; exact ⟨t ++ r, rfl⟩
    have hdrop : u.drop 7 = t ++ r := by rw [hu, drop7_of_pat_append]
    have hrun : takeTokenRun (u.drop 7) ≠ [] := by
      rw [hdrop, takeTokenRun_append_of_all t r htok]
      simp [hne]
    simp [matchBearerAt, hp, hrun]

theorem matchBearerAt_none_of_not_matches (s : List Char) (j : Nat)
    (h : bearerMatchesAt s j = false) : matchBearerAt (s.drop j) = none := by
  unfold bearerMatchesAt at h
  rw [Bool.and_eq_false_iff] at h
  unfold matchBearerAt
  rcases h with h | h
  · simp [h]
  · have h2 : notTokenHead ((s.drop j).drop 7) = true := by simpa using h
    have h3 := takeTokenRun_eq_nil_of_notTokenHead _ h2
    rw [List.drop_drop] at h3
    by_cases hp : bearerPat.isPrefixOf (s.drop j)
    · simp [hp, h3]
    · simp [hp]

/- ### Lemmas about the left-to-right search -/

theorem reSearchBearer_eq_none_iff (s : List Char) :
    reSearchBearer s = none ↔ ∀ i, matchBearerAt (s.drop i) = none := by
  induction s with
  | nil =>
    simp only [reSearchBearer, true_iff]
    intro i
    simp [matchBearerAt_nil]
  | cons c cs ih =>
    constructor
    · intro h i
      unfold reSearchBearer at h
      cases hm : matchBearerAt (c :: cs) with
      | some t => rw [hm] at h; exact absurd h (by simp)
      | none =>
        rw [hm] at h
        cases i with
        | zero => simpa using hm
        | succ j => exact (ih.mp h) j
    · intro h
      have h0 : matchBearerAt (c :: cs) = none := by simpa using h 0
      unfold reSearchBearer
      rw [h0]
      exact ih.mpr (fun j => by simpa using h (j + 1))

theorem reSearchBearer_first (s : List Char) :
    ∀ (i : Nat) (t : List Char),
      matchBearerAt (s.drop i) = some t →
      (∀ j, j < i → matchBearerAt (s.drop j) = none) →
      reSearchBearer s = some t := by
  induction s with
  | nil =>
    intro i t h _
    rw [List.drop_nil, matchBearerAt_nil] at h
    exact absurd h (by simp)
  | cons c cs ih =>
    intro i t h hmin
    cases i with
    | zero =>
      rw [List.drop_zero] at h
      unfold reSearchBearer
      rw [h]
    | succ j =>
      have h0 : matchBearerAt (c :: cs) = none := by
        simpa using hmin 0 (Nat.succ_pos j)
      unfold reSearchBearer
      rw [h0]
      exact ih j t h (fun k hk => hmin (k + 1) (Nat.succ_lt_succ hk))

theorem matchBearerAt_some_ne_nil (u t : List Char)
    (h : matchBearerAt u = some t) : t ≠ [] := by
  unfold matchBearerAt at h
  by_cases hp : bearerPat.isPrefixOf u
  · simp only [hp, if_pos] at h
    by_cases hz : takeTokenRun (u.drop 7) = []
    · simp [hz] at h
    · have ht : takeTokenRun (u.drop 7) = t := by simpa [hz] using h
      rw [← ht]; exact hz
  · simp [hp] at h

theorem reSearchBearer_token_ne_nil (s t : List Char)
    (h : reSearchBearer s = some t) : t ≠ [] := by
  induction s with
  | nil => simp [reSearchBearer] at h
  | cons c cs ih =>
    unfold reSearchBearer at h
    cases hm : matchBearerAt (c :: cs) with
    | some t0 =>
      rw [hm] at h
      have ht : t0 = t := by simpa using h
      subst ht
      exact matchBearerAt_some_ne_nil _ _ hm
    | none =>
      rw [hm] at h
      exact ih h

/- ### Lemmas about dict update -/

theorem dictGet_insert (d : List (String × String)) (k v k1 : String) :
    dictGet (dictInsert d k v) k1 = if k = k1 then some v else dictGet d k1 := by
  induction d with
  | nil => simp [dictInsert, dictGet]
  | cons kv rest ih =>
    obtain ⟨k0, v0⟩ := kv
    by_cases h0 : k0 = k
    · subst h0
      by_cases h1 : k0 = k1
      · subst h1; simp [dictInsert, dictGet]
      · simp [dictInsert, dictGet, h1]
    · by_cases h1 : k0 = k1
      · subst h1
        have hk : ¬(k = k0) := fun h => h0 h.symm
        simp [dictInsert, dictGet, h0, hk]
      · simp [dictInsert, dictGet, h0, h1, ih]

theorem dictGet_none_of_not_mem (h : List (String × String)) (k : String)
    (hk : k ∉ h.map Prod.fst) : dictGet h k = none := by
  induction h with
  | nil => rfl
  | cons kv rest ih =>
    obtain ⟨k0, v0⟩ := kv
    simp only [List.map_cons, List.mem_cons] at hk
    push_neg at hk
    have hne : ¬(k0 = k) := fun hh => hk.1 hh.symm
    simp [dictGet, hne, ih hk.2]

theorem dictGet_update : ∀ (h d : List (String × String)),
    (h.map Prod.fst).Nodup →
    ∀ k, dictGet (dictUpdate d h) k = firstSome (dictGet h k) (dictGet d k)
  | [], d, _, k => by simp [dictUpdate, dictGet, firstSome]
  | (k0, v0) :: rest, d, hnd, k => by
    have hpair := List.nodup_cons.mp (show (k0 :: rest.map Prod.fst).Nodup from hnd)
    have hnd0 : k0 ∉ rest.map Prod.fst := hpair.1
    have hndr : (rest.map Prod.fst).Nodup := hpair.2
    have hstep : dictUpdate d ((k0, v0) :: rest) = dictUpdate (dictInsert d k0 v0) rest := rfl
    rw [hstep, dictGet_update rest (dictInsert d k0 v0) hndr k]
    by_cases hk : k0 = k
    · subst hk
      have hr : dictGet rest k0 = none := dictGet_none_of_not_mem _ _ hnd0
      simp [dictGet, firstSome, hr, dictGet_insert]
    · simp [dictGet, firstSome, hk, dictGet_insert]

/- ### Inversion of a successful authentication -/

theorem extractBearerFromLog_ok_ne_empty (s : List Char) (tokStr : String)
    (h : extractBearerFromLog s = Except.ok tokStr) : tokStr ≠ "" := by
  unfold extractBearerFromLog at h
  cases hm : reSearchBearer s with
  | none => rw [hm] at h; exact absurd h (by simp)
  | some t =>
    rw [hm] at h
    have ht : String.mk t = tokStr := by simpa using h
    intro hempty
    rw [hempty] at ht
    have hdata := congrArg String.data ht
    exact reSearchBearer_token_ne_nil s t hm (by simpa using hdata)

theorem authenticate_ok_shape (env : Env) (st st1 : ScraperState) (evs : List BrowserEvent)
    (h : authenticate env st = (evs, st1, none)) :
    ∃ tokStr : String, tokStr ≠ "" ∧
      st1.session = some { cookies := env.browserCookies, closed := false } ∧
      st1.bearer_token = some tokStr ∧
      st1.driver = some { quitted := false } := by
  unfold authenticate at h
  by_cases hl : env.browserLaunchOk = false
  · rw [if_pos hl] at h
    simp at h
  · rw [if_neg hl] at h
    rcases hp : perform_login env st.config with ⟨evsL, oe⟩
    rw [hp] at h
    cases oe with
    | some e => simp at h
    | none =>
      simp only [extract_bearer_token] at h
      cases hx : extractBearerFromLog env.telemetryLog with
      | error e => rw [hx] at h; simp at h
      | ok tokStr =>
        rw [hx] at h
        simp only [setup_session, Prod.mk.injEq] at h
        refine ⟨tokStr, extractBearerFromLog_ok_ne_empty _ _ hx, ?_, ?_, ?_⟩ <;>
          rw [← h.2.1]

/- ### Claims -/

/-- C2: for every serialized telemetry log in which `Bearer ` followed by one
or more characters from [A-Za-z0-9-_.] occurs, token extraction returns the
token of the first such occurrence in log order: if position i is the first
position where the pattern matches and t is the maximal token run there, the
extraction returns exactly t.  In particular a log whose only match is
`Bearer abc.def-123_ABC` yields `abc.def-123_ABC`, and with two distinct
bearer tokens the one appearing first wins. -/
theorem C2_first_match_wins (s t : List Char) (i : Nat)
    (hpre : (bearerPat ++ t) <+: s.drop i)
    (hne : t ≠ [])
    (htok : ∀ c ∈ t, isTokenChar c = true)
    (hbound : notTokenHead ((s.drop i).drop (7 + t.length)) = true)
    (hmin : ∀ j, j < i → bearerMatchesAt s j = false) :
    extractBearerFromLog s = Except.ok (String.mk t) := by
  have hm : matchBearerAt (s.drop i) = some t :=
    matchBearerAt_eq_some (s.drop i) t hpre hne htok (by rw [List.drop_drop] at hbound ⊢; exact hbound)
  have hsearch : reSearchBearer s = some t :=
    reSearchBearer_first s i t hm
      (fun j hj => matchBearerAt_none_of_not_matches s j (hmin j hj))
  simp [extractBearerFromLog, hsearch]

/-- C2 witness: on the concrete log
"junk Bearer abc.def-123_ABC more Bearer zzz9 end", which holds two distinct
bearer tokens, extraction returns the first one, abc.def-123_ABC. -/
theorem C2_witness : extractBearerFromLog logTwoTokens = Except.ok "abc.def-123_ABC" := by
  exact C2_first_match_wins logTwoTokens (("abc.def-123_ABC").toList) 5
    (by rw [← isPreOf_iff]; decide) (by decide) (by decide) (by decide)
    (by decide)

/-- C3: token extraction fails with TokenNotFoundError if and only if the
serialized log contains no match of the bearer pattern (no position where
"Bearer " is followed by a token character); in particular a log without any
"Bearer " substring makes it fail with this error kind, never a silent empty
result. -/
theorem C3_token_not_found_iff (s : List Char) :
    (extractBearerFromLog s = Except.error ScraperError.tokenNotFound ↔
      ¬ ∃ i t, t ≠ [] ∧ (∀ c ∈ t, isTokenChar c = true) ∧ (bearerPat ++ t) <+: s.drop i) ∧
    ((∀ i, i < s.length → bearerPat.isPrefixOf (s.drop i) = false) →
      extractBearerFromLog s = Except.error ScraperError.tokenNotFound) := by
  have hchain : extractBearerFromLog s = Except.error ScraperError.tokenNotFound ↔
      reSearchBearer s = none := by
    unfold extractBearerFromLog
    cases hm : reSearchBearer s <;> simp
  have hiff : extractBearerFromLog s = Except.error ScraperError.tokenNotFound ↔
      ¬ ∃ i t, t ≠ [] ∧ (∀ c ∈ t, isTokenChar c = true) ∧ (bearerPat ++ t) <+: s.drop i := by
    rw [hchain, reSearchBearer_eq_none_iff]
    constructor
    · rintro hall ⟨i, t, hne, htok, hp⟩
      have : (matchBearerAt (s.drop i)).isSome = true :=
        (matchBearerAt_isSome_iff (s.drop i)).mpr ⟨t, hne, htok, hp⟩
      rw [hall i] at this
      exact absurd this (by simp)
    · intro hno i
      cases hm : matchBearerAt (s.drop i) with
      | none => rfl
      | some t =>
        obtain ⟨t0, hne, htok, hp⟩ := (matchBearerAt_isSome_iff (s.drop i)).mp (by simp [hm])
        exact absurd ⟨i, t0, hne, htok, hp⟩ hno
  refine ⟨hiff, fun hnopat => ?_⟩
  rw [hchain, reSearchBearer_eq_none_iff]
  intro i
  by_cases hi : i < s.length
  · unfold matchBearerAt
    rw [hnopat i hi]
    simp
  · have hdrop : s.drop i = [] := List.drop_eq_nil_of_le (by omega)
    rw [hdrop, matchBearerAt_nil]

/-- C3 witness: a concrete log with no "Bearer " substring fails with
TokenNotFoundError. -/
theorem C3_witness :
    extractBearerFromLog (("status 200 no auth header here").toList) =
      Except.error ScraperError.tokenNotFound := by
  exact (C3_token_not_found_iff (("status 200 no auth header here").toList)).2 (by decide)

/-- C1 counterexample: with an empty username (and the browser able to
start), authenticate does raise MissingCredentialsError — but only after the
browser has been launched and the homepage navigation has been recorded, so
the claimed "no browser is launched and zero navigation calls" is false. -/
theorem C1_counterexample :
    (authenticate envHappy stC1).2.2 = some ScraperError.missingCredentials ∧
    BrowserEvent.launch ∈ (authenticate envHappy stC1).1 ∧
    navCount (authenticate envHappy stC1).1 = 1 ∧
    navCount (authenticate envHappy stC1).1 ≠ 0 := by decide

/-- C1 amended: with empty username or password (and a browser that starts),
authenticate fails with MissingCredentialsError before any credential is
typed into the browser — but only after the browser is launched, the
homepage is loaded (exactly one navigation call recorded) and the consent
step has run. -/
theorem C1_missing_credentials (env : Env) (st : ScraperState)
    (hlaunch : env.browserLaunchOk = true)
    (hcreds : st.config.username = "" ∨ st.config.password = "") :
    (authenticate env st).2.2 = some ScraperError.missingCredentials ∧
    BrowserEvent.launch ∈ (authenticate env st).1 ∧
    navCount (authenticate env st).1 = 1 ∧
    (∀ sel text, BrowserEvent.sendKeys sel text ∉ (authenticate env st).1) := by
  by_cases hc : env.consentClickable <;>
    simp [authenticate, perform_login, accept_cookies, hlaunch, hcreds, hc,
      navCount, isNavigate]

/-- C1 witness: the amended claim evaluated on the concrete credential-less
configuration. -/
theorem C1_witness :
    (authenticate envNoConsent stC1).2.2 = some ScraperError.missingCredentials ∧
    BrowserEvent.launch ∈ (authenticate envNoConsent stC1).1 ∧
    navCount (authenticate envNoConsent stC1).1 = 1 ∧
    (∀ sel text, BrowserEvent.sendKeys sel text ∉ (authenticate envNoConsent stC1).1) :=
  C1_missing_credentials envNoConsent stC1 (by decide) (Or.inl (by decide))

/-- C4 counterexample: it is not true that every issued request comes from a
state with a non-empty cookie jar.  From a state whose session exists but
whose jar is empty (the browser handed over no cookies) and whose token is
"T", the guard of line 273 passes and the request is issued. -/
theorem C4_counterexample :
    ¬ (∀ (st : ScraperState) (e m : String) (hd : Option (List (String × String)))
        (req : ApiRequest),
        api_request st e m hd = Except.ok req →
        (∃ t, st.bearer_token = some t ∧ t ≠ "") ∧
        (∃ s, st.session = some s ∧ s.cookies ≠ [])) := by
  intro hclaim
  have hreq : api_request stEmptyJar "x" "GET" none = Except.ok reqEmptyJar := by rfl
  obtain ⟨-, s, hs, hne⟩ := hclaim stEmptyJar "x" "GET" none reqEmptyJar hreq
  have hs2 : s = { cookies := [], closed := false } :=
    (Option.some.inj (show (some { cookies := [], closed := false } : Option SessionState)
      = some s from hs)).symm
  rw [hs2] at hne
  exact hne rfl

/-- C4 amended: every request that api_request actually issues (returns ok)
is made with a present, non-empty bearer token and an existing session whose
cookie jar is forwarded verbatim; the jar itself, however, may be empty —
its non-emptiness is not part of the guard. -/
theorem C4_issued_request_state (st : ScraperState) (e m : String)
    (hd : Option (List (String × String))) (req : ApiRequest)
    (h : api_request st e m hd = Except.ok req) :
    (∃ t, st.bearer_token = some t ∧ t ≠ "") ∧
    (∃ s, st.session = some s ∧ req.jar = s.cookies) := by
  unfold api_request at h
  cases hs : st.session with
  | none => rw [hs] at h; cases st.bearer_token <;> simp at h
  | some sess =>
    cases hbt : st.bearer_token with
    | none => rw [hs, hbt] at h; simp at h
    | some tok =>
      rw [hs, hbt] at h
      by_cases htok : tok = ""
      · simp [htok] at h
      · refine ⟨⟨tok, rfl, htok⟩, ⟨sess, rfl, ?_⟩⟩
        simp only [htok, if_neg, if_false] at h
        have := (Except.ok.inj h).symm
        rw [this]

/-- C4 witness: the amended claim evaluated on a concrete authenticated
state. -/
theorem C4_witness :
    (∃ t, stApi.bearer_token = some t ∧ t ≠ "") ∧
    (∃ s, stApi.session = some s ∧ reqApi.jar = s.cookies) :=
  C4_issued_request_state stApi "x" "GET" none reqApi (by rfl)

/-- C7: invoked with no HTTP session or no bearer token present (the state
before authentication completes), api_request fails with
NotAuthenticatedError; in the embedding, returning an error means no
ApiRequest value is produced, i.e. no network request is issued. -/
theorem C7_guard_not_authenticated (st : ScraperState) (e m : String)
    (hd : Option (List (String × String)))
    (h : st.session = none ∨ st.bearer_token = none) :
    api_request st e m hd = Except.error ScraperError.notAuthenticated := by
  unfold api_request
  cases hs : st.session with
  | none => cases st.bearer_token <;> simp
  | some sess =>
    cases hbt : st.bearer_token with
    | none => simp
    | some tok =>
      rcases h with h | h
      · rw [hs] at h; exact absurd h (by simp)
      · rw [hbt] at h; exact absurd h (by simp)

/-- C7 witness: a freshly constructed scraper (no session, no token) is
rejected by the guard. -/
theorem C7_witness :
    api_request (initScraper cfgWithCreds) "anwender/berufsbilder/check" "GET" none =
      Except.error ScraperError.notAuthenticated :=
  C7_guard_not_authenticated (initScraper cfgWithCreds) "anwender/berufsbilder/check" "GET"
    none (Or.inl rfl)

/-- C6: every authenticated request for endpoint e with caller headers H has
URL api_base_url + "/" + e, and its header dict is the fixed set of lines
278-287 updated by H, so every key collision resolves to the caller value
and every other key keeps its fixed value. -/
theorem C6_url_and_header_merge (st : ScraperState) (sess : SessionState) (tok : String)
    (hs : st.session = some sess) (ht : st.bearer_token = some tok) (hne : tok ≠ "")
    (e m : String) (H : List (String × String)) (hnd : (H.map Prod.fst).Nodup) :
    ∃ req, api_request st e m (some H) = Except.ok req ∧
      req.url = st.config.api_base_url ++ "/" ++ e ∧
      req.headers = dictUpdate (fixedHeaders st.config tok) H ∧
      (∀ k, dictGet req.headers k =
        firstSome (dictGet H k) (dictGet (fixedHeaders st.config tok) k)) := by
  refine ⟨{ url := st.config.api_base_url ++ "/" ++ e, method := m,
            headers := dictUpdate (fixedHeaders st.config tok) H, jar := sess.cookies },
    ?_, rfl, rfl, ?_⟩
  · simp [api_request, hs, ht, hne]
  · intro k
    exact dictGet_update H (fixedHeaders st.config tok) hnd k

/-- C6 witness: the merge contract on a concrete state with a caller-supplied
Accept header overriding the fixed application/json. -/
theorem C6_witness :
    ∃ req, api_request stApi "ep" "GET" (some [("Accept", "text/html")]) = Except.ok req ∧
      req.url = stApi.config.api_base_url ++ "/" ++ "ep" ∧
      req.headers = dictUpdate (fixedHeaders stApi.config "TOK") [("Accept", "text/html")] ∧
      (∀ k, dictGet req.headers k =
        firstSome (dictGet [("Accept", "text/html")] k)
          (dictGet (fixedHeaders stApi.config "TOK") k)) :=
  C6_url_and_header_merge stApi { cookies := [("a", "1")], closed := false } "TOK"
    rfl rfl (by decide) "ep" "GET" [("Accept", "text/html")] (by decide)

/-- C5 counterexample: for a 204 response the typed accessor neither returns
a parsed body nor raises an HTTP error: status is not 200, and
raise_for_status does not raise below 400, so the Python function falls
through and silently returns None. -/
theorem C5_counterexample :
    ¬ ((∃ b, get_berufsbilder_check stApi resp204 = Except.ok (CheckResult.jsonBody b)) ∨
       (∃ s bd, get_berufsbilder_check stApi resp204 =
          Except.error (ScraperError.httpError s bd))) := by
  have hres : get_berufsbilder_check stApi resp204 = Except.ok CheckResult.pyNone := by rfl
  rintro (⟨b, hb⟩ | ⟨s, bd, hsb⟩)
  · rw [hres] at hb
    exact absurd (Except.ok.inj hb) (by simp)
  · rw [hres] at hsb
    exact Except.noConfusion hsb

/-- C5 amended: from an authenticated state the accessor returns the parsed
body exactly on status 200 and raises the HTTP error, carrying the response
status and body, exactly on statuses in [400, 600); for every other
non-200 status (e.g. 201, 204, 3xx) it silently returns Python None. -/
theorem C5_status_trichotomy (st : ScraperState) (sess : SessionState) (tok : String)
    (hs : st.session = some sess) (ht : st.bearer_token = some tok) (hne : tok ≠ "")
    (resp : HttpResponse) :
    (resp.status = 200 →
      get_berufsbilder_check st resp = Except.ok (CheckResult.jsonBody resp.body)) ∧
    (400 ≤ resp.status ∧ resp.status < 600 →
      get_berufsbilder_check st resp =
        Except.error (ScraperError.httpError resp.status resp.body)) ∧
    (resp.status ≠ 200 → ¬(400 ≤ resp.status ∧ resp.status < 600) →
      get_berufsbilder_check st resp = Except.ok CheckResult.pyNone) := by
  have hreq : api_request st "anwender/berufsbilder/check" "GET" none =
      Except.ok { url := st.config.api_base_url ++ "/" ++ "anwender/berufsbilder/check",
                  method := "GET", headers := fixedHeaders st.config tok,
                  jar := sess.cookies } := by
    simp [api_request, hs, ht, hne]
  refine ⟨?_, ?_, ?_⟩
  · intro h200
    simp [get_berufsbilder_check, hreq, h200]
  · rintro ⟨h4, h6⟩
    have hne200 : ¬(resp.status = 200) := by omega
    simp [get_berufsbilder_check, hreq, hne200, raise_for_status, h4, h6]
  · intro hne200 hnot
    simp [get_berufsbilder_check, hreq, hne200, raise_for_status, hnot]

/-- C5 witness: a concrete 404 response surfaces as an HTTP error carrying
status and body. -/
theorem C5_witness :
    get_berufsbilder_check stApi { status := 404, body := "not found" } =
      Except.error (ScraperError.httpError 404 "not found") :=
  (C5_status_trichotomy stApi { cookies := [("a", "1")], closed := false } "TOK"
    rfl rfl (by decide) { status := 404, body := "not found" }).2.1 (by decide)

/-- C8: when no clickable consent control appears within the 3-unit timeout,
the consent step completes without error and without clicking anything, and
the flow proceeds to the login wait; and this tolerated timeout is the only
non-fatal wait: a timeout of the login-link, username or password wait makes
authenticate fail. -/
theorem C8_consent_timeout_tolerated (env : Env) (st : ScraperState)
    (hlaunch : env.browserLaunchOk = true)
    (hcreds : st.config.username ≠ "" ∧ st.config.password ≠ "")
    (hconsent : env.consentClickable = false) :
    (accept_cookies env).2 = none ∧
    (∀ sel, BrowserEvent.click sel ∉ (accept_cookies env).1) ∧
    BrowserEvent.waitClickable loginLinkSelector 10 ∈ (authenticate env st).1 ∧
    ((env.loginLinkClickable = false ∨ env.usernameFieldPresent = false ∨
        env.passwordFieldPresent = false) →
      (authenticate env st).2.2 = some ScraperError.elementTimeout) := by
  have hcu : ¬(st.config.username = "" ∨ st.config.password = "") := by
    rintro (h | h)
    · exact hcreds.1 h
    · exact hcreds.2 h
  refine ⟨by simp [accept_cookies, hconsent], by simp [accept_cookies, hconsent], ?_, ?_⟩
  · by_cases h1 : env.loginLinkClickable = false
    · simp [authenticate, perform_login, accept_cookies, hlaunch, hconsent, hcu, h1]
    · by_cases h2 : env.usernameFieldPresent = false
      · simp [authenticate, perform_login, accept_cookies, hlaunch, hconsent, hcu, h1, h2]
      · by_cases h3 : env.passwordFieldPresent = false
        · simp [authenticate, perform_login, accept_cookies, hlaunch, hconsent, hcu,
            h1, h2, h3]
        · cases hx : extractBearerFromLog env.telemetryLog <;>
            simp [authenticate, perform_login, accept_cookies, extract_bearer_token,
              setup_session, hlaunch, hconsent, hcu, h1, h2, h3, hx]
  · intro hy
    by_cases h1 : env.loginLinkClickable = false
    · simp [authenticate, perform_login, accept_cookies, hlaunch, hconsent, hcu, h1]
    · by_cases h2 : env.usernameFieldPresent = false
      · simp [authenticate, perform_login, accept_cookies, hlaunch, hconsent, hcu, h1, h2]
      · by_cases h3 : env.passwordFieldPresent = false
        · simp [authenticate, perform_login, accept_cookies, hlaunch, hconsent, hcu,
            h1, h2, h3]
        · rcases hy with hy | hy | hy
          · exact absurd hy h1
          · exact absurd hy h2
          · exact absurd hy h3

/-- C8 witness: the concrete banner-absent environment with full credentials,
including the fatality of a login-link timeout. -/
theorem C8_witness :
    (accept_cookies envNoConsent).2 = none ∧
    (∀ sel, BrowserEvent.click sel ∉ (accept_cookies envNoConsent).1) ∧
    BrowserEvent.waitClickable loginLinkSelector 10 ∈
      (authenticate envNoConsent (initScraper cfgWithCreds)).1 ∧
    ((envNoConsent.loginLinkClickable = false ∨ envNoConsent.usernameFieldPresent = false ∨
        envNoConsent.passwordFieldPresent = false) →
      (authenticate envNoConsent (initScraper cfgWithCreds)).2.2 =
        some ScraperError.elementTimeout) :=
  C8_consent_timeout_tolerated envNoConsent (initScraper cfgWithCreds) (by decide)
    ⟨by decide, by decide⟩ (by decide)

/-- C9: close never raises: it returns no error from any state, including a
second close of an already-closed state and the state of a scraper whose
launch never succeeded (driver and session absent, as after __init__). -/
theorem C9_close_idempotent (st : ScraperState) :
    (close st).2.2 = none ∧
    (close (close st).2.1).2.2 = none ∧
    (close (initScraper st.config)).2.2 = none := by
  obtain ⟨cfg, d, s, b⟩ := st
  cases d <;> cases s <;> simp [close, initScraper]

/-- C10: close marks the driver and session objects closed but leaves the
scraper attributes populated: bearer_token is unchanged and the driver and
session references stay set.  Hence after a successful authenticate followed
by close, api_request still passes the line-273 guard and issues the request
on the now-closed session. -/
theorem C10_close_keeps_auth_state (env : Env) (st0 st1 : ScraperState)
    (evs : List BrowserEvent)
    (hauth : authenticate env st0 = (evs, st1, none)) (e m : String) :
    (close st1).2.1.bearer_token = st1.bearer_token ∧
    (close st1).2.1.session.isSome = st1.session.isSome ∧
    (close st1).2.1.driver.isSome = st1.driver.isSome ∧
    (∃ s, (close st1).2.1.session = some s ∧ s.closed = true) ∧
    (∃ req, api_request (close st1).2.1 e m none = Except.ok req) := by
  obtain ⟨tokStr, hne, hsess, htok, hdrv⟩ := authenticate_ok_shape env st0 st1 evs hauth
  obtain ⟨cfg1, d1, s1, b1⟩ := st1
  simp only at hsess htok hdrv
  subst hsess htok hdrv
  refine ⟨rfl, rfl, rfl, ⟨_, rfl, rfl⟩,
    ⟨{ url := cfg1.api_base_url ++ "/" ++ e, method := m,
       headers := fixedHeaders cfg1 tokStr, jar := env.browserCookies }, ?_⟩⟩
  simp [close, api_request, hne]

/-- C10 witness: concrete successful authentication, then close, then a
request that still passes the guard. -/
theorem C10_witness :
    (close stHappy).2.1.bearer_token = stHappy.bearer_token ∧
    (close stHappy).2.1.session.isSome = stHappy.session.isSome ∧
    (close stHappy).2.1.driver.isSome = stHappy.driver.isSome ∧
    (∃ s, (close stHappy).2.1.session = some s ∧ s.closed = true) ∧
    (∃ req, api_request (close stHappy).2.1 "anwender/berufsbilder/check" "GET" none =
      Except.ok req) :=
  C10_close_keeps_auth_state envHappy (initScraper cfgWithCreds) stHappy evsHappy
    (by rfl) "anwender/berufsbilder/check" "GET"
